import Mathlib

/-!
Shallow embedding of the `DateRangeInput2` component
(`src/packages/datetime2/src/components/date-range-input2/dateRangeInput2.tsx`)
from the blueprint repository, together with theorems settling the
specification claims about its state-reconciliation, validation and
event-handling logic.

JavaScript `Date` values are modelled at millisecond precision as either an
invalid date (a `Date` whose timestamp is NaN) or a valid date given by a
calendar-day index (an integer) and a millisecond offset within that day.
Comparison operators on JS dates compare timestamps, and every comparison
involving NaN is false; both facts are reflected below.
-/

namespace Blueprint

/-- A JavaScript `Date`: either invalid (`new Date(undefined)`, timestamp NaN)
or a valid instant, split into a calendar-day index and the milliseconds
elapsed within that day (so the timestamp is `day * 86400000 + ms`,
lexicographic on `(day, ms)`). -/
inductive JSDate where
  | invalidDate : JSDate
  | validDate : Int → Nat → JSDate
deriving DecidableEq, Repr

/-- `date-fns` `isValid` (external library): a date is valid iff its timestamp
is not NaN. -/
def isValid : JSDate → Bool
  | .invalidDate => false
  | .validDate _ _ => true

/-- The JS `<` operator on two `Date`s: timestamp comparison; any comparison
involving an invalid date (NaN) is false. -/
def jsLt : JSDate → JSDate → Bool
  | .validDate d1 m1, .validDate d2 m2 =>
      decide (d1 < d2) || (decide (d1 = d2) && decide (m1 < m2))
  | _, _ => false

/-- `date-fns` `isSameDay` (external library): both dates are valid and fall
on the same calendar day; false when either is invalid. -/
def isSameDay : JSDate → JSDate → Bool
  | .validDate d1 _, .validDate d2 _ => decide (d1 = d2)
  | _, _ => false

/-- The two ends of a date range (the `Boundary` enum). -/
inductive Boundary where
  | START : Boundary
  | END : Boundary
deriving DecidableEq, Repr

/-- A `DateRange`: a pair of `Date | null` values, start then end. -/
abbrev DateRange := Option JSDate × Option JSDate

/-- Result of the injected `parseDate` prop, whose TS type is
`Date | false | null`. -/
inductive ParseResult where
  | dateResult : JSDate → ParseResult
  | nullResult : ParseResult
  | falseResult : ParseResult
deriving DecidableEq, Repr

/-- The props of `DateRangeInput2` used by its core logic. `value = none`
models the prop being strictly `undefined` (uncontrolled mode); `some r`
models a controlled range. The injected `parseDate`/`formatDate` functions
ignore the locale argument, which the core logic only forwards. -/
structure Props where
  value : Option DateRange
  allowSingleDayRange : Bool
  closeOnSelection : Bool
  selectAllOnFocus : Bool
  minDate : JSDate
  maxDate : JSDate
  invalidDateMessage : String
  outOfRangeMessage : String
  overlappingDatesMessage : String
  parseDate : String → ParseResult
  formatDate : JSDate → String

/-- The component state (`DateRangeInput2State`). `Option` collapses the
JS `null`/`undefined` distinction for the string-valued transients, which the
component only ever tests with loose `== null` / `!= null` checks. -/
structure State where
  isOpen : Bool
  boundaryToModify : Option Boundary
  lastFocusedField : Option Boundary
  formattedMinDateString : Option String
  formattedMaxDateString : Option String
  isStartInputFocused : Bool
  isEndInputFocused : Bool
  startInputString : Option String
  endInputString : Option String
  startHoverString : Option String
  endHoverString : Option String
  selectedStart : Option JSDate
  selectedEnd : Option JSDate
  shouldSelectAfterUpdate : Bool
  wasLastFocusChangeDueToHover : Bool
  selectedShortcutIndex : Int

/-- `values.inputString` of `getStateKeysAndValuesForBoundary`. -/
def State.inputString : State → Boundary → Option String
  | st, .START => st.startInputString
  | st, .END => st.endInputString

/-- `values.hoverString` of `getStateKeysAndValuesForBoundary`. -/
def State.hoverString : State → Boundary → Option String
  | st, .START => st.startHoverString
  | st, .END => st.endHoverString

/-- `values.isInputFocused` of `getStateKeysAndValuesForBoundary`. -/
def State.isInputFocused : State → Boundary → Bool
  | st, .START => st.isStartInputFocused
  | st, .END => st.isEndInputFocused

/-- `values.selectedValue` of `getStateKeysAndValuesForBoundary`. -/
def State.selectedValue : State → Boundary → Option JSDate
  | st, .START => st.selectedStart
  | st, .END => st.selectedEnd

/-- The setState update `[keys.inputString]: v` for a boundary. -/
def State.setInputString : State → Boundary → Option String → State
  | st, .START, v => { st with startInputString := v }
  | st, .END, v => { st with endInputString := v }

/-- The setState update `[keys.hoverString]: v` for a boundary. -/
def State.setHoverString : State → Boundary → Option String → State
  | st, .START, v => { st with startHoverString := v }
  | st, .END, v => { st with endHoverString := v }

/-- The setState update `[keys.isInputFocused]: v` for a boundary. -/
def State.setIsInputFocused : State → Boundary → Bool → State
  | st, .START, v => { st with isStartInputFocused := v }
  | st, .END, v => { st with isEndInputFocused := v }

/-- The setState update `[keys.selectedValue]: v` for a boundary. -/
def State.setSelectedValue : State → Boundary → Option JSDate → State
  | st, .START, v => { st with selectedStart := v }
  | st, .END, v => { st with selectedEnd := v }

/-- `getOtherBoundary`. -/
def getOtherBoundary : Boundary → Boundary
  | .START => .END
  | .END => .START

/-- `isControlled`: the `value` prop is not strictly `undefined`. -/
def isControlled (props : Props) : Bool := props.value.isSome

/-- `values.controlledValue` of `getStateKeysAndValuesForBoundary`:
`undefined` when the controlled range is absent, otherwise the range's entry
for the boundary (itself possibly `null`). The outer `Option` is the
`undefined` case. -/
def controlledValue (props : Props) : Boundary → Option (Option JSDate)
  | .START => props.value.map Prod.fst
  | .END => props.value.map Prod.snd

/-- `isInputEmpty`: loose `inputString == null || inputString.length === 0`. -/
def isInputEmpty : Option String → Bool
  | none => true
  | some s => decide (s.length = 0)

/-- Modelled from the spec: `isDayInRange` lives in the repository's
`datetime2` common date utilities, which are not under `src/`. Per the spec
(§4.2), a date is in range iff it is a valid calendar date falling within
`[minDate, maxDate]` inclusive at calendar-day granularity. -/
def isDayInRange (d : JSDate) (minDate maxDate : JSDate) : Bool :=
  match d, minDate, maxDate with
  | .validDate dd _, .validDate mn _, .validDate mx _ =>
      decide (mn ≤ dd) && decide (dd ≤ mx)
  | _, _, _ => false

/-- `isDateValidAndInRange`: `isValid(date) && isDayInRange(date, [min, max])`
on a `Date | null` argument (`isValid(null)` is false, short-circuiting the
range check). -/
def isDateValidAndInRange (props : Props) (date : Option JSDate) : Bool :=
  match date with
  | none => false
  | some d => isValid d && isDayInRange d props.minDate props.maxDate

/-- `doBoundaryDatesOverlap(date, boundary)`: false when either side is null;
for START, the date is strictly after the other boundary's selected date or
(single-day ranges disallowed) on the same day; for END, strictly before or
on the same day. -/
def doBoundaryDatesOverlap (props : Props) (st : State)
    (date : Option JSDate) (boundary : Boundary) : Bool :=
  match date, st.selectedValue (getOtherBoundary boundary) with
  | some d, some o =>
      match boundary with
      | .START => jsLt o d || (!props.allowSingleDayRange && isSameDay d o)
      | .END => jsLt d o || (!props.allowSingleDayRange && isSameDay d o)
  | _, _ => false

/-- `doesEndBoundaryOverlapStartBoundary`: false for the START boundary,
otherwise the overlap check for END. -/
def doesEndBoundaryOverlapStartBoundary (props : Props) (st : State)
    (boundaryDate : JSDate) (boundary : Boundary) : Bool :=
  match boundary with
  | .START => false
  | .END => doBoundaryDatesOverlap props st (some boundaryDate) .END

/-- `isNextDateRangeValid`: valid, in range, and not overlapping the other
boundary. -/
def isNextDateRangeValid (props : Props) (st : State)
    (nextDate : Option JSDate) (boundary : Boundary) : Bool :=
  isDateValidAndInRange props nextDate &&
    !doBoundaryDatesOverlap props st nextDate boundary

/-- `getDateRangeForCallback(currDate, currBoundary)`: pairs the given date
with the other boundary's currently selected date, in range order. -/
def getDateRangeForCallback (st : State) (currDate : Option JSDate)
    (currBoundary : Boundary) : DateRange :=
  match currBoundary with
  | .START => (currDate, st.selectedValue (getOtherBoundary .START))
  | .END => (st.selectedValue (getOtherBoundary .END), currDate)

namespace DateRangeInput2

/-- The private `parseDate` wrapper: `undefined` input or input equal to a
configured error message parses to null; otherwise the injected parser runs,
with a `false` result replaced by `new Date()` (the `now` argument). -/
def parseDate (props : Props) (now : JSDate) (dateString : Option String) :
    Option JSDate :=
  match dateString with
  | none => none
  | some s =>
      if s = props.outOfRangeMessage ∨ s = props.invalidDateMessage then none
      else
        match props.parseDate s with
        | .falseResult => some now
        | .nullResult => none
        | .dateResult d => some d

/-- The private `formatDate` wrapper: empty string for an invalid or
out-of-range (or null) date, otherwise the injected formatter. -/
def formatDate (props : Props) (date : Option JSDate) : String :=
  if isDateValidAndInRange props date then
    match date with
    | some d => props.formatDate d
    | none => ""
  else ""

/-- Modelled from the spec: `DatePickerUtils.getFormattedDateString` lives in
the repository's `datetime` package, which is not under `src/`. Per the spec
(§6, §7), an error-state boundary substitutes the configured message string
for the date text: a null date formats to the empty string, an invalid date
to `invalidDateMessage`, an out-of-range date to `outOfRangeMessage`, and
otherwise the injected `formatDate` runs. -/
def getFormattedDateString (props : Props) (date : Option JSDate) : String :=
  match date with
  | none => ""
  | some d =>
      if !isValid d then props.invalidDateMessage
      else if !isDayInRange d props.minDate props.maxDate then
        props.outOfRangeMessage
      else props.formatDate d

/-- `getSelectedRange(fallbackRange?)`: picks the controlled value or the
internal selection, suppresses the end date when the start date overlaps the
END boundary, then replaces each bound that is not valid-and-in-range with
the corresponding fallback date (`undefined` when no fallback range is
given). -/
def getSelectedRange (props : Props) (st : State)
    (fallbackRange : Option (JSDate × JSDate)) : DateRange :=
  let selected : DateRange :=
    match props.value with
    | some r => r
    | none => (st.selectedStart, st.selectedEnd)
  let overlap := doBoundaryDatesOverlap props st selected.1 .START
  let pick : Option JSDate → Option JSDate → Option JSDate :=
    fun selectedBound fallbackDate =>
      if isDateValidAndInRange props selectedBound then selectedBound
      else fallbackDate
  ( pick selected.1 (fallbackRange.map Prod.fst),
    pick (if overlap then none else selected.2) (fallbackRange.map Prod.snd) )

/-- `getInputDisplayString(boundary)`: hover string first; a focused field
shows its raw input string (empty when unset); an unfocused field shows
nothing when unselected, the overlapping-dates message when its END value
overlaps the start, and the formatted selected date otherwise. -/
def getInputDisplayString (props : Props) (st : State) (boundary : Boundary) :
    String :=
  match st.hoverString boundary with
  | some h => h
  | none =>
      if st.isInputFocused boundary then (st.inputString boundary).getD ""
      else
        match st.selectedValue boundary with
        | none => ""
        | some v =>
            if doesEndBoundaryOverlapStartBoundary props st v boundary then
              props.overlappingDatesMessage
            else getFormattedDateString props (some v)

/-- `handleInputChange(e, boundary)`: returns the next state together with
the payload of the `onChange` call the handler makes, if any. The callback
payload is computed from the pre-update state, as in the source, where
`onChange` fires before `setState` applies. -/
def handleInputChange (props : Props) (now : JSDate) (st : State)
    (boundary : Boundary) (inputString : String) : State × Option DateRange :=
  let maybeNextDate := DateRangeInput2.parseDate props now (some inputString)
  let isValueControlled := isControlled props
  let base0 := { st with shouldSelectAfterUpdate := false }
  if inputString.length = 0 then
    let baseState := base0.setInputString boundary (some "")
    let nextState :=
      if isValueControlled then baseState
      else baseState.setSelectedValue boundary none
    (nextState, some (getDateRangeForCallback st none boundary))
  else if isDateValidAndInRange props maybeNextDate then
    let baseState :=
      (base0.setHoverString boundary none).setInputString boundary
        (some inputString)
    let nextState :=
      if isValueControlled then baseState
      else baseState.setSelectedValue boundary maybeNextDate
    let payload :=
      if isNextDateRangeValid props st maybeNextDate boundary then
        some (getDateRangeForCallback st maybeNextDate boundary)
      else none
    (nextState, payload)
  else
    ((base0.setInputString boundary (some inputString)).setHoverString
        boundary none,
      none)

/-- `handleInputBlur(e, boundary)`: returns the next state together with the
payload of the `onError` call the handler makes, if any. As in the source,
the `onError` payload reads the pre-update state. -/
def handleInputBlur (props : Props) (now : JSDate) (st : State)
    (boundary : Boundary) : State × Option DateRange :=
  let inputString := st.inputString boundary
  let maybeNextDate := DateRangeInput2.parseDate props now inputString
  let isValueControlled := isControlled props
  let base :=
    ({ st with shouldSelectAfterUpdate := false }).setIsInputFocused boundary
      false
  if isInputEmpty inputString then
    let nextState :=
      if isValueControlled then
        base.setInputString boundary
          (some (getFormattedDateString props
            ((controlledValue props boundary).getD none)))
      else
        (base.setInputString boundary none).setSelectedValue boundary none
    (nextState, none)
  else if !isNextDateRangeValid props st maybeNextDate boundary then
    let nextState :=
      if !isValueControlled then
        (base.setInputString boundary none).setSelectedValue boundary
          maybeNextDate
      else base
    (nextState, some (getDateRangeForCallback st maybeNextDate boundary))
  else (base, none)

/-- `handleDateRangePickerHoverChange(hoveredRange, _hoveredDay,
hoveredBoundary)`: ignored while the popover is closed; a null hovered range
restores focus according to `boundaryToModify` and clears both hover strings;
a non-null hovered range sets both hover strings to the hovered dates'
formatted text, moves focus to the hovered boundary when one is given, and
marks the focus change as hover-driven. -/
def handleDateRangePickerHoverChange (props : Props) (st : State)
    (hoveredRange : Option DateRange) (hoveredBoundary : Option Boundary) :
    State :=
  if !st.isOpen then st
  else
    match hoveredRange with
    | none =>
        let isEndInputFocused := decide (st.boundaryToModify = some .END)
        { st with
          endHoverString := none,
          isEndInputFocused := isEndInputFocused,
          isStartInputFocused := !isEndInputFocused,
          lastFocusedField := st.boundaryToModify,
          startHoverString := none }
    | some (hoveredStart, hoveredEnd) =>
        let isStartInputFocused :=
          match hoveredBoundary with
          | some b => decide (b = .START)
          | none => st.isStartInputFocused
        let isEndInputFocused :=
          match hoveredBoundary with
          | some b => decide (b = .END)
          | none => st.isEndInputFocused
        { st with
          endHoverString := some (DateRangeInput2.formatDate props hoveredEnd),
          isEndInputFocused := isEndInputFocused,
          isStartInputFocused := isStartInputFocused,
          lastFocusedField :=
            if isStartInputFocused then some .START else some .END,
          shouldSelectAfterUpdate := props.selectAllOnFocus,
          startHoverString :=
            some (DateRangeInput2.formatDate props hoveredStart),
          wasLastFocusChangeDueToHover := true }

/-- The `value` prop as seen by `validateProps`, keeping TypeScript's
`undefined` / `null` / range distinction, which that check depends on. -/
inductive ValueProp where
  | undefinedValue : ValueProp
  | nullValue : ValueProp
  | rangeValue : DateRange → ValueProp
deriving DecidableEq, Repr

/-- The message of `Errors.DATERANGEINPUT_NULL_VALUE` (the errors module is
not under `src/`; the claims depend only on the failure, not the text). -/
def DATERANGEINPUT_NULL_VALUE : String :=
  "value cannot be null, use undefined to switch to uncontrolled mode"

/-- `validateProps`: throws a blocking error when the `value` prop is
literally `null`; every other value passes. -/
def validateProps (value : ValueProp) : Except String Unit :=
  if value = .nullValue then .error DATERANGEINPUT_NULL_VALUE
  else .ok ()

end DateRangeInput2

open DateRangeInput2

/-- A concrete uncontrolled configuration: day range `[0, 1000]`, default
messages, an injected parser that always fails with `null`. -/
def sampleProps : Props where
  value := none
  allowSingleDayRange := false
  closeOnSelection := true
  selectAllOnFocus := false
  minDate := .validDate 0 0
  maxDate := .validDate 1000 0
  invalidDateMessage := "Invalid date"
  outOfRangeMessage := "Out of range"
  overlappingDatesMessage := "Overlapping dates"
  parseDate := fun _ => .nullResult
  formatDate := fun _ => "formatted"

/-- `sampleProps` with an injected parser that always returns `false`. -/
def sampleFalseProps : Props :=
  { sampleProps with parseDate := fun _ => .falseResult }

/-- A controlled configuration whose external value holds an invalid start
date and a null end date. -/
def controlledBadProps : Props :=
  { sampleProps with value := some (some .invalidDate, none) }

/-- A concrete state: popover open, nothing selected, last focus change
caused by hovering. -/
def sampleState : State where
  isOpen := true
  boundaryToModify := none
  lastFocusedField := none
  formattedMinDateString := none
  formattedMaxDateString := none
  isStartInputFocused := false
  isEndInputFocused := false
  startInputString := none
  endInputString := none
  startHoverString := none
  endHoverString := none
  selectedStart := none
  selectedEnd := none
  shouldSelectAfterUpdate := false
  wasLastFocusChangeDueToHover := true
  selectedShortcutIndex := -1

/-- `sampleState` with an end date selected on day 3. -/
def overlapState : State := { sampleState with selectedEnd := some (.validDate 3 0) }

/-- `sampleState` with unparseable text sitting in the start field. -/
def blurState : State := { sampleState with startInputString := some "garbage" }

/-- `sampleState` with a hover-preview string on the start field. -/
def displayState : State := { sampleState with startHoverString := some "hovered" }

/-- Claim C10: the internal `parseDate` wrapper returns null (no date, no
commit) whenever the input string is undefined or exactly equals the
configured `outOfRangeMessage` or `invalidDateMessage`, so an error-message
string displayed in a field is never itself re-parsed and committed as a
date. -/
theorem parseDate_rejects_message_strings (props : Props) (now : JSDate) :
    DateRangeInput2.parseDate props now none = none ∧
    DateRangeInput2.parseDate props now (some props.outOfRangeMessage) = none ∧
    DateRangeInput2.parseDate props now (some props.invalidDateMessage) = none := by
  refine ⟨rfl, ?_, ?_⟩ <;> simp [DateRangeInput2.parseDate]

/-- Claim C7: for an input string that reaches the injected `parseDate` prop
(i.e. is not short-circuited as a configured error-message string), a `false`
return from the prop makes the internal parse produce the current date
`new Date()` rather than an invalid result, so such input can pass validation
and be committed. -/
theorem parseDate_false_becomes_now (props : Props) (now : JSDate) (s : String)
    (hOut : s ≠ props.outOfRangeMessage) (hInv : s ≠ props.invalidDateMessage)
    (hFalse : props.parseDate s = .falseResult) :
    DateRangeInput2.parseDate props now (some s) = some now := by
  simp [DateRangeInput2.parseDate, hOut, hInv, hFalse]

/-- Witness for C7 at a concrete parser returning `false` on the string
`"x"`. -/
theorem parseDate_false_becomes_now_witness :
    DateRangeInput2.parseDate sampleFalseProps (.validDate 5 0) (some "x") =
      some (.validDate 5 0) :=
  parseDate_false_becomes_now sampleFalseProps (.validDate 5 0) "x"
    (by decide) (by decide) rfl

/-- Claim C8: `validateProps` rejects a controlled `value` that is literally
null with an immediate blocking failure (a thrown error), and every non-null
value (including a range of two nulls, and an absent value) passes. -/
theorem validateProps_null_value_fatal :
    DateRangeInput2.validateProps .nullValue =
      .error DateRangeInput2.DATERANGEINPUT_NULL_VALUE ∧
    ∀ v : DateRangeInput2.ValueProp, v ≠ .nullValue →
      DateRangeInput2.validateProps v = .ok () := by
  refine ⟨rfl, ?_⟩
  intro v hv
  simp [DateRangeInput2.validateProps, hv]

/-- Witness for C8: the all-null range passes validation. -/
theorem validateProps_null_value_fatal_witness :
    DateRangeInput2.validateProps (.rangeValue (none, none)) = .ok () :=
  validateProps_null_value_fatal.2 (.rangeValue (none, none)) (by decide)

/-- Claim C5: `isDateValidAndInRange` is false for an invalid date and for a
null date regardless of the configured range, and on valid calendar dates it
holds exactly for the days within `[minDate, maxDate]` inclusive. -/
theorem isDateValidAndInRange_characterization (props : Props) :
    isDateValidAndInRange props (some .invalidDate) = false ∧
    isDateValidAndInRange props none = false ∧
    ∀ mn mnMs mx mxMs d ms,
      props.minDate = .validDate mn mnMs → props.maxDate = .validDate mx mxMs →
      (isDateValidAndInRange props (some (.validDate d ms)) = true ↔
        mn ≤ d ∧ d ≤ mx) := by
  refine ⟨rfl, rfl, ?_⟩
  intro mn mnMs mx mxMs d ms hmin hmax
  simp [isDateValidAndInRange, isValid, isDayInRange, hmin, hmax]

/-- Witness for C5: day 3 lies within the sample range `[0, 1000]`. -/
theorem isDateValidAndInRange_characterization_witness :
    isDateValidAndInRange sampleProps (some (.validDate 3 0)) = true :=
  ((isDateValidAndInRange_characterization sampleProps).2.2 0 0 1000 0 3 0
    rfl rfl).mpr (by decide)

/-- Claim C2: `doBoundaryDatesOverlap` is false when either side is null;
for START it holds iff the date is strictly after the other boundary's
selected date (timestamp order) or, when single-day ranges are disallowed,
falls on the same calendar day; for END the comparison is reversed; and on
any pair of equal valid dates it equals `!allowSingleDayRange` for both
boundaries. -/
theorem doBoundaryDatesOverlap_characterization (props : Props) (st : State) :
    (∀ b, doBoundaryDatesOverlap props st none b = false) ∧
    (∀ b d, st.selectedValue (getOtherBoundary b) = none →
      doBoundaryDatesOverlap props st (some d) b = false) ∧
    (∀ d1 m1 d2 m2, st.selectedEnd = some (.validDate d2 m2) →
      (doBoundaryDatesOverlap props st (some (.validDate d1 m1)) .START = true ↔
        (d2 < d1 ∨ (d2 = d1 ∧ m2 < m1)) ∨
          (props.allowSingleDayRange = false ∧ d1 = d2))) ∧
    (∀ d1 m1 d2 m2, st.selectedStart = some (.validDate d2 m2) →
      (doBoundaryDatesOverlap props st (some (.validDate d1 m1)) .END = true ↔
        (d1 < d2 ∨ (d1 = d2 ∧ m1 < m2)) ∨
          (props.allowSingleDayRange = false ∧ d1 = d2))) ∧
    (∀ d m, st.selectedEnd = some (.validDate d m) →
      doBoundaryDatesOverlap props st (some (.validDate d m)) .START =
        !props.allowSingleDayRange) ∧
    (∀ d m, st.selectedStart = some (.validDate d m) →
      doBoundaryDatesOverlap props st (some (.validDate d m)) .END =
        !props.allowSingleDayRange) := by
  refine ⟨?_, ?_, ?_, ?_, ?_, ?_⟩
  · intro b
    cases b <;> rfl
  · intro b d h
    cases b <;> simp_all [doBoundaryDatesOverlap, getOtherBoundary]
  · intro d1 m1 d2 m2 h
    cases hA : props.allowSingleDayRange <;>
      simp [doBoundaryDatesOverlap, getOtherBoundary, State.selectedValue,
        jsLt, isSameDay, h, hA]
  · intro d1 m1 d2 m2 h
    cases hA : props.allowSingleDayRange <;>
      simp [doBoundaryDatesOverlap, getOtherBoundary, State.selectedValue,
        jsLt, isSameDay, h, hA]
  · intro d m h
    cases hA : props.allowSingleDayRange <;>
      simp [doBoundaryDatesOverlap, getOtherBoundary, State.selectedValue,
        jsLt, isSameDay, h, hA]
  · intro d m h
    cases hA : props.allowSingleDayRange <;>
      simp [doBoundaryDatesOverlap, getOtherBoundary, State.selectedValue,
        jsLt, isSameDay, h, hA]

/-- Witness for C2: with an end date selected on day 3 and single-day ranges
disallowed, a start candidate on day 3 overlaps. -/
theorem doBoundaryDatesOverlap_characterization_witness :
    doBoundaryDatesOverlap sampleProps overlapState (some (.validDate 3 0))
      .START = true :=
  (doBoundaryDatesOverlap_characterization sampleProps overlapState).2.2.2.2.1
    3 0 rfl

/-- Claim C9: `getInputDisplayString` precedence — a non-null hover string is
always displayed; otherwise a focused field shows its raw input string (empty
when unset), never a substituted message; otherwise an unfocused field whose
selected END value overlaps the start shows the overlapping-dates message,
and a non-overlapping selected value shows its formatted date string. -/
theorem getInputDisplayString_precedence (props : Props) (st : State)
    (b : Boundary) :
    (∀ h, st.hoverString b = some h → getInputDisplayString props st b = h) ∧
    (st.hoverString b = none → st.isInputFocused b = true →
      getInputDisplayString props st b = (st.inputString b).getD "") ∧
    (st.hoverString b = none → st.isInputFocused b = false →
      ∀ v, st.selectedValue b = some v →
        doesEndBoundaryOverlapStartBoundary props st v b = true →
        getInputDisplayString props st b = props.overlappingDatesMessage) ∧
    (st.hoverString b = none → st.isInputFocused b = false →
      ∀ v, st.selectedValue b = some v →
        doesEndBoundaryOverlapStartBoundary props st v b = false →
        getInputDisplayString props st b =
          getFormattedDateString props (some v)) := by
  refine ⟨?_, ?_, ?_, ?_⟩
  · intro h hh
    simp [getInputDisplayString, hh]
  · intro hh hf
    simp [getInputDisplayString, hh, hf]
  · intro hh hf v hv hov
    simp [getInputDisplayString, hh, hf, hv, hov]
  · intro hh hf v hv hov
    simp [getInputDisplayString, hh, hf, hv, hov]

/-- Witness for C9: a hover-preview string on the start field is displayed
verbatim. -/
theorem getInputDisplayString_precedence_witness :
    getInputDisplayString sampleProps displayState .START = "hovered" :=
  (getInputDisplayString_precedence sampleProps displayState .START).1
    "hovered" rfl

/-- Counterexample to claim C6: at a concrete open-popover state whose last
focus change was hover-driven, handling a null hovered range leaves
`wasLastFocusChangeDueToHover` equal to `true` — the handler does not set it
to `false` as the claim states. -/
theorem hoverChange_null_keeps_hover_flag :
    sampleState.isOpen = true ∧
    sampleState.wasLastFocusChangeDueToHover = true ∧
    (DateRangeInput2.handleDateRangePickerHoverChange sampleProps sampleState
        none none).wasLastFocusChangeDueToHover = true :=
  ⟨rfl, rfl, rfl⟩

/-- Claim C6 as amended: when a hover-change event carries a null hovered
range while the popover is open, the handler restores focus to the field
matching `boundaryToModify` (START when it is unset), clears both hover
strings and records `boundaryToModify` as the last focused field, but leaves
`wasLastFocusChangeDueToHover` unchanged. -/
theorem hoverChange_null_restores_focus (props : Props) (st : State)
    (hb : Option Boundary) (hOpen : st.isOpen = true) :
    (DateRangeInput2.handleDateRangePickerHoverChange props st none
        hb).startHoverString = none ∧
    (DateRangeInput2.handleDateRangePickerHoverChange props st none
        hb).endHoverString = none ∧
    (DateRangeInput2.handleDateRangePickerHoverChange props st none
        hb).isEndInputFocused = decide (st.boundaryToModify = some .END) ∧
    (DateRangeInput2.handleDateRangePickerHoverChange props st none
        hb).isStartInputFocused = !decide (st.boundaryToModify = some .END) ∧
    (st.boundaryToModify = none →
      (DateRangeInput2.handleDateRangePickerHoverChange props st none
          hb).isStartInputFocused = true) ∧
    (DateRangeInput2.handleDateRangePickerHoverChange props st none
        hb).lastFocusedField = st.boundaryToModify ∧
    (DateRangeInput2.handleDateRangePickerHoverChange props st none
        hb).wasLastFocusChangeDueToHover = st.wasLastFocusChangeDueToHover := by
  refine ⟨?_, ?_, ?_, ?_, ?_, ?_, ?_⟩ <;>
    simp_all [DateRangeInput2.handleDateRangePickerHoverChange, hOpen]

/-- Witness for the amended C6 at the concrete sample state. -/
theorem hoverChange_null_restores_focus_witness :
    (DateRangeInput2.handleDateRangePickerHoverChange sampleProps sampleState
        none none).startHoverString = none :=
  (hoverChange_null_restores_focus sampleProps sampleState none rfl).1

/-- Counterexample to claim C1: in controlled mode `getSelectedRange` does
not return the external value verbatim — the validity filter also runs in
controlled mode. At a concrete controlled value holding an invalid start
date and a null end date (no overlap involved), the result drops the invalid
start instead of passing it through. -/
theorem getSelectedRange_controlled_filters_invalid :
    controlledBadProps.value = some (some .invalidDate, none) ∧
    doBoundaryDatesOverlap controlledBadProps sampleState (some .invalidDate)
      .START = false ∧
    getSelectedRange controlledBadProps sampleState none = (none, none) ∧
    getSelectedRange controlledBadProps sampleState none ≠
      (some .invalidDate, none) := by
  refine ⟨rfl, rfl, rfl, ?_⟩
  decide

/-- Claim C1 as amended: in controlled mode `getSelectedRange` returns the
external value verbatim only when both boundaries are valid and in range and
the start does not overlap the END boundary; otherwise the same
overlap-suppression and validity filtering as in uncontrolled mode applies —
the END date is suppressed to the fallback on overlap, and each invalid or
out-of-range boundary value is replaced with the fallback in both modes. -/
theorem getSelectedRange_controlled_characterization (props : Props)
    (st : State) (fb : Option (JSDate × JSDate)) (s e : Option JSDate)
    (hv : props.value = some (s, e)) :
    (isDateValidAndInRange props s = true →
      isDateValidAndInRange props e = true →
      doBoundaryDatesOverlap props st s .START = false →
      getSelectedRange props st fb = (s, e)) ∧
    (isDateValidAndInRange props s = false →
      (getSelectedRange props st fb).1 = fb.map Prod.fst) ∧
    (doBoundaryDatesOverlap props st s .START = true →
      (getSelectedRange props st fb).2 = fb.map Prod.snd) ∧
    (isDateValidAndInRange props e = false →
      (getSelectedRange props st fb).2 = fb.map Prod.snd) := by
  refine ⟨?_, ?_, ?_, ?_⟩
  · intro hs he hov
    simp [getSelectedRange, hv, hs, he, hov]
  · intro hs
    simp [getSelectedRange, hv, hs]
  · intro hov
    simp [getSelectedRange, hv, hov, isDateValidAndInRange]
  · intro he
    cases hov : doBoundaryDatesOverlap props st s .START
    · simp [getSelectedRange, hv, hov, he]
    · simp [getSelectedRange, hv, hov, isDateValidAndInRange]

/-- Witness for the amended C1: the invalid controlled start date is
filtered to the absent fallback. -/
theorem getSelectedRange_controlled_characterization_witness :
    (getSelectedRange controlledBadProps sampleState none).1 = none :=
  (getSelectedRange_controlled_characterization controlledBadProps sampleState
    none (some .invalidDate) none rfl).2.1 rfl

/-- Claim C3: on every typing event, an empty input string immediately fires
`onChange` with null for the edited boundary paired with the other
boundary's current selected date; a candidate parsing to a valid in-range
date fires `onChange` with the parsed pair exactly when it does not overlap
the other boundary; an overlapping candidate fires no `onChange` and only
updates the input/hover/selection transients (popover and focus state are
untouched); an unparseable or out-of-range candidate fires no `onChange`. -/
theorem handleInputChange_onChange_policy (props : Props) (now : JSDate)
    (st : State) (b : Boundary) (s : String) :
    (s.length = 0 →
      (handleInputChange props now st .START s).2 =
          some (none, st.selectedEnd) ∧
        (handleInputChange props now st .END s).2 =
          some (st.selectedStart, none)) ∧
    (s.length ≠ 0 →
      isDateValidAndInRange props
          (DateRangeInput2.parseDate props now (some s)) = true →
      doBoundaryDatesOverlap props st
          (DateRangeInput2.parseDate props now (some s)) b = false →
      (handleInputChange props now st b s).2 =
        some (getDateRangeForCallback st
          (DateRangeInput2.parseDate props now (some s)) b)) ∧
    (s.length ≠ 0 →
      doBoundaryDatesOverlap props st
          (DateRangeInput2.parseDate props now (some s)) b = true →
      (handleInputChange props now st b s).2 = none) ∧
    (s.length ≠ 0 →
      isDateValidAndInRange props
          (DateRangeInput2.parseDate props now (some s)) = false →
      (handleInputChange props now st b s).2 = none) ∧
    (s.length ≠ 0 →
      isDateValidAndInRange props
          (DateRangeInput2.parseDate props now (some s)) = true →
      doBoundaryDatesOverlap props st
          (DateRangeInput2.parseDate props now (some s)) b = true →
      ((handleInputChange props now st b s).1.isOpen = st.isOpen ∧
        (handleInputChange props now st b s).1.isStartInputFocused =
          st.isStartInputFocused ∧
        (handleInputChange props now st b s).1.isEndInputFocused =
          st.isEndInputFocused ∧
        (handleInputChange props now st b s).1.lastFocusedField =
          st.lastFocusedField ∧
        (handleInputChange props now st b s).1.boundaryToModify =
          st.boundaryToModify ∧
        (handleInputChange props now st b s).1.inputString b = some s ∧
        (handleInputChange props now st b s).1.hoverString b = none)) := by
  refine ⟨?_, ?_, ?_, ?_, ?_⟩
  · intro h
    constructor <;>
      simp [handleInputChange, h, getDateRangeForCallback, getOtherBoundary,
        State.selectedValue]
  · intro h1 h2 h3
    simp [handleInputChange, h1, h2, h3, isNextDateRangeValid]
  · intro h1 h3
    cases h2 : isDateValidAndInRange props
        (DateRangeInput2.parseDate props now (some s)) <;>
      simp [handleInputChange, h1, h2, h3, isNextDateRangeValid]
  · intro h1 h2
    simp [handleInputChange, h1, h2]
  · intro h1 h2 h3
    cases b <;> cases hc : isControlled props <;>
      simp [handleInputChange, h1, h2, h3, hc, isNextDateRangeValid,
        State.setInputString, State.setHoverString, State.setSelectedValue,
        State.inputString, State.hoverString]

/-- Witness for C3: typing an empty string into the start field fires
`onChange` with a null start and the current end date. -/
theorem handleInputChange_onChange_policy_witness :
    (handleInputChange sampleProps (.validDate 5 0) sampleState .START "").2 =
      some (none, sampleState.selectedEnd) :=
  ((handleInputChange_onChange_policy sampleProps (.validDate 5 0) sampleState
    .START "").1 rfl).1

/-- Claim C4: on blur with a non-empty input whose parsed date fails the
valid/in-range/non-overlap check, uncontrolled mode stores the parsed (bad)
date as the boundary's selected value while clearing that boundary's input
buffer, leaving the other boundary untouched; controlled mode mutates no
selection, buffer or hover state (only the focus flag and the
select-after-update flag are reset); in both modes `onError` receives the
bad date paired with the other boundary's current selected date. -/
theorem handleInputBlur_invalid_policy (props : Props) (now : JSDate)
    (st : State) (b : Boundary)
    (hne : isInputEmpty (st.inputString b) = false)
    (hbad : isNextDateRangeValid props st
      (DateRangeInput2.parseDate props now (st.inputString b)) b = false) :
    (isControlled props = false →
      ((handleInputBlur props now st b).1.selectedValue b =
          DateRangeInput2.parseDate props now (st.inputString b) ∧
        (handleInputBlur props now st b).1.inputString b = none ∧
        (handleInputBlur props now st b).1.isInputFocused b = false ∧
        (handleInputBlur props now st b).1.selectedValue (getOtherBoundary b) =
          st.selectedValue (getOtherBoundary b) ∧
        (handleInputBlur props now st b).1.inputString (getOtherBoundary b) =
          st.inputString (getOtherBoundary b))) ∧
    (isControlled props = true →
      ((handleInputBlur props now st b).1.selectedStart = st.selectedStart ∧
        (handleInputBlur props now st b).1.selectedEnd = st.selectedEnd ∧
        (handleInputBlur props now st b).1.startInputString =
          st.startInputString ∧
        (handleInputBlur props now st b).1.endInputString =
          st.endInputString ∧
        (handleInputBlur props now st b).1.startHoverString =
          st.startHoverString ∧
        (handleInputBlur props now st b).1.endHoverString =
          st.endHoverString ∧
        (handleInputBlur props now st b).1.isInputFocused b = false ∧
        (handleInputBlur props now st b).1.shouldSelectAfterUpdate = false)) ∧
    (b = .START →
      (handleInputBlur props now st b).2 =
        some (DateRangeInput2.parseDate props now (st.inputString b),
          st.selectedEnd)) ∧
    (b = .END →
      (handleInputBlur props now st b).2 =
        some (st.selectedStart,
          DateRangeInput2.parseDate props now (st.inputString b))) := by
  refine ⟨?_, ?_, ?_, ?_⟩
  · intro hc
    cases b <;>
      simp_all [handleInputBlur, State.setInputString, State.setSelectedValue,
        State.setIsInputFocused, State.inputString, State.selectedValue,
        State.isInputFocused, getOtherBoundary]
  · intro hc
    cases b <;>
      simp_all [handleInputBlur, State.setIsInputFocused, State.inputString,
        State.isInputFocused]
  · rintro rfl
    simp_all [handleInputBlur, getDateRangeForCallback, getOtherBoundary,
      State.selectedValue, State.inputString]
  · rintro rfl
    simp_all [handleInputBlur, getDateRangeForCallback, getOtherBoundary,
      State.selectedValue, State.inputString]

/-- Witness for C4: blurring the start field over unparseable text in the
uncontrolled sample configuration clears the start buffer. -/
theorem handleInputBlur_invalid_policy_witness :
    (handleInputBlur sampleProps (.validDate 5 0) blurState .START).1.inputString
      .START = none :=
  ((handleInputBlur_invalid_policy sampleProps (.validDate 5 0) blurState
    .START rfl rfl).1 rfl).2.1

end Blueprint
